import Mathlib

/-!
Verification of the measurement / camera / grid layer of a browser CAD viewer.

The development shallowly embeds the three source modules
(`cad_tools/measure.js`, `cad_tools/tools.js`, `camera.js` holding the
`Camera`, `Raycaster` and `Grid` classes) and proves the specified
properties about them.  Machine floating-point numbers are modelled by
exact arithmetic (`ℚ` where the code is discrete, `ℝ` where square roots
and logarithms occur); JavaScript `null` / `undefined` is modelled by
`Option`; code that can throw returns an error component.
-/

namespace Measure

/-- A measurement mode: the maximum number of selectable shapes
(`_getMaxObjSelected`) and the overlay objects its `_makeLines` adds to the
scene. -/
structure Mode where
  maxObjSelected : Nat
  lines : List String
deriving DecidableEq, Repr

/-- `DistanceMeasurement`: `_getMaxObjSelected() = 2`; `_makeLines` adds the
distance arrow and the panel connecting line. -/
def distanceMode : Mode := ⟨2, ["distanceLine", "connectingLine"]⟩

/-- `PropertiesMeasurement`: `_getMaxObjSelected() = 1`; `_makeLines` adds the
panel connecting line. -/
def propertiesMode : Mode := ⟨1, ["connectingLine"]⟩

/-- `AngleMeasurement`: `_getMaxObjSelected() = 2`; `_makeLines` adds the
curved angle arrow and the panel connecting line. -/
def angleMode : Mode := ⟨2, ["angleLine", "connectingLine"]⟩

/-- The per-mode state of a `Measurement` instance: the selected shapes (by
id, a JS array, last element = top of `push`/`pop`), the panel's CSS
display value, the overlay scene content, the cached backend response, and
whether the last `_updateMeasurement` call rendered the measurement. -/
structure MState where
  selectedShapes : List Nat
  panelDisplay : String
  scene : List String
  responseData : Option Nat
  rendered : Bool
deriving DecidableEq, Repr

/-- State after the `Measurement` constructor: no selected shapes, no cached
response, empty overlay scene. -/
def initState : MState :=
  { selectedShapes := [], panelDisplay := "", scene := [], responseData := none,
    rendered := false }

/-- `Measurement._hideMeasurement`: clears the cached response, hides the
panel and empties the overlay scene. -/
def hideMeasurement (st : MState) : MState :=
  { st with responseData := none, panelDisplay := "none", scene := [] }

/-- `Measurement._updateMeasurement` (with the module constant `DEBUG = true`):
if the number of selected shapes differs from the mode's maximum it hides the
measurement and returns; otherwise it sets the measurement values, adds the
mode's overlay lines to the scene and shows the panel. -/
def updateMeasurement (mode : Mode) (st : MState) : MState :=
  if st.selectedShapes.length = mode.maxObjSelected then
    { st with scene := st.scene ++ mode.lines, panelDisplay := "block",
              rendered := true }
  else
    { hideMeasurement st with rendered := false }

/-- `Measurement.removeLastSelectedObj`: pops the last selected shape (a pop
on an empty JS array is a no-op apart from returning `undefined`) and calls
`_updateMeasurement`. -/
def removeLastSelectedObj (mode : Mode) (st : MState) : MState :=
  updateMeasurement mode { st with selectedShapes := st.selectedShapes.dropLast }

/-- `Measurement.handleSelection(objGroup)`: hides the measurement; if the
selection is full, removes the last selected shape; then toggles `objGroup`
(`splice` at `indexOf` removes the first occurrence, otherwise `push`
appends); finally calls `_updateMeasurement`. -/
def handleSelection (mode : Mode) (st : MState) (g : Nat) : MState :=
  let st1 := hideMeasurement st
  let st2 := if st1.selectedShapes.length = mode.maxObjSelected then
               removeLastSelectedObj mode st1
             else st1
  let st3 := if g ∈ st2.selectedShapes then
               { st2 with selectedShapes := st2.selectedShapes.erase g }
             else
               { st2 with selectedShapes := st2.selectedShapes ++ [g] }
  updateMeasurement mode st3

/-- The operations a user's picking session performs on the selection. -/
inductive MOp where
  | select (g : Nat)
  | removeLast
deriving DecidableEq, Repr

/-- Apply one operation to the measurement state. -/
def applyOp (mode : Mode) (st : MState) : MOp → MState
  | .select g => handleSelection mode st g
  | .removeLast => removeLastSelectedObj mode st

/-- Run a sequence of operations from the initial (empty) selection. -/
def runOps (mode : Mode) (ops : List MOp) : MState :=
  ops.foldl (applyOp mode) initState

/-- The selection invariant: pairwise-distinct shapes, never more than the
mode's maximum. -/
def selInvariant (mode : Mode) (st : MState) : Prop :=
  st.selectedShapes.Nodup ∧ st.selectedShapes.length ≤ mode.maxObjSelected

lemma hideMeasurement_selectedShapes (st : MState) :
    (hideMeasurement st).selectedShapes = st.selectedShapes := rfl

lemma updateMeasurement_selectedShapes (mode : Mode) (st : MState) :
    (updateMeasurement mode st).selectedShapes = st.selectedShapes := by
  unfold updateMeasurement hideMeasurement
  split <;> rfl

lemma removeLast_selectedShapes (mode : Mode) (st : MState) :
    (removeLastSelectedObj mode st).selectedShapes = st.selectedShapes.dropLast := by
  unfold removeLastSelectedObj
  rw [updateMeasurement_selectedShapes]

lemma handleSelection_selectedShapes (mode : Mode) (st : MState) (g : Nat) :
    (handleSelection mode st g).selectedShapes =
      (let s2 := if st.selectedShapes.length = mode.maxObjSelected then
                   st.selectedShapes.dropLast
                 else st.selectedShapes
       if g ∈ s2 then s2.erase g else s2 ++ [g]) := by
  unfold handleSelection
  rw [updateMeasurement_selectedShapes]
  dsimp only
  by_cases h1 : st.selectedShapes.length = mode.maxObjSelected <;>
    simp only [hideMeasurement_selectedShapes, h1, if_true, if_false,
      removeLast_selectedShapes, reduceIte] <;>
    by_cases h2 : g ∈ (if st.selectedShapes.length = mode.maxObjSelected then
        st.selectedShapes.dropLast else st.selectedShapes) <;>
    simp_all

lemma selInvariant_applyOp (mode : Mode) (hmax : 1 ≤ mode.maxObjSelected)
    (st : MState) (op : MOp) (h : selInvariant mode st) :
    selInvariant mode (applyOp mode st op) := by
  obtain ⟨hnd, hlen⟩ := h
  cases op with
  | removeLast =>
    dsimp only [applyOp]
    refine ⟨?_, ?_⟩
    · rw [removeLast_selectedShapes]
      exact hnd.sublist (List.dropLast_sublist _)
    · rw [removeLast_selectedShapes]
      exact le_trans (List.length_dropLast _ ▸ Nat.sub_le _ _) hlen
  | select g =>
    dsimp only [applyOp]
    have hs2nd : (if st.selectedShapes.length = mode.maxObjSelected then
        st.selectedShapes.dropLast else st.selectedShapes).Nodup := by
      split
      · exact hnd.sublist (List.dropLast_sublist _)
      · exact hnd
    have hs2len : (if st.selectedShapes.length = mode.maxObjSelected then
        st.selectedShapes.dropLast else st.selectedShapes).length <
          mode.maxObjSelected := by
      by_cases heq : st.selectedShapes.length = mode.maxObjSelected
      · rw [if_pos heq, List.length_dropLast, heq]
        exact Nat.sub_lt (lt_of_lt_of_le Nat.zero_lt_one hmax) Nat.zero_lt_one
      · rw [if_neg heq]
        exact lt_of_le_of_ne hlen heq
    constructor
    · rw [handleSelection_selectedShapes]
      dsimp only
      by_cases hmem : g ∈ (if st.selectedShapes.length = mode.maxObjSelected then
          st.selectedShapes.dropLast else st.selectedShapes)
      · rw [if_pos hmem]
        exact hs2nd.erase g
      · rw [if_neg hmem, List.nodup_append]
        exact ⟨hs2nd, List.nodup_singleton g,
          by simpa [List.disjoint_singleton] using hmem⟩
    · rw [handleSelection_selectedShapes]
      dsimp only
      by_cases hmem : g ∈ (if st.selectedShapes.length = mode.maxObjSelected then
          st.selectedShapes.dropLast else st.selectedShapes)
      · rw [if_pos hmem]
        exact le_trans ((List.erase_sublist _ _).length_le) (le_of_lt hs2len)
      · rw [if_neg hmem, List.length_append, List.length_singleton]
        exact Nat.succ_le_of_lt hs2len

lemma selInvariant_foldl (mode : Mode) (hmax : 1 ≤ mode.maxObjSelected)
    (ops : List MOp) (st : MState) (h : selInvariant mode st) :
    selInvariant mode (ops.foldl (applyOp mode) st) := by
  induction ops generalizing st with
  | nil => exact h
  | cons op rest ih =>
    exact ih _ (selInvariant_applyOp mode hmax st op h)

/-- **C2.** For each of the three measurement modes (DistanceMeasurement with
maximum 2, PropertiesMeasurement with maximum 1, AngleMeasurement with
maximum 2) and every sequence of `handleSelection` / `removeLastSelectedObj`
calls starting from the empty selection, the `selectedShapes` list contains
pairwise-distinct shapes and its length never exceeds the mode's maximum. -/
theorem measurement_selection_invariant (mode : Mode)
    (hmode : mode = distanceMode ∨ mode = propertiesMode ∨ mode = angleMode)
    (ops : List MOp) :
    (runOps mode ops).selectedShapes.Nodup ∧
      (runOps mode ops).selectedShapes.length ≤ mode.maxObjSelected := by
  have hmax : 1 ≤ mode.maxObjSelected := by
    rcases hmode with h | h | h <;> subst h <;> decide
  exact selInvariant_foldl mode hmax ops initState (by constructor <;> simp [initState])

/-- Witness for C2 at a concrete run: select 5, select 7, select 9 in
distance mode (maximum 2). -/
theorem measurement_selection_invariant_witness :
    (runOps distanceMode [MOp.select 5, MOp.select 7, MOp.select 9]).selectedShapes.Nodup ∧
      (runOps distanceMode
        [MOp.select 5, MOp.select 7, MOp.select 9]).selectedShapes.length ≤
        distanceMode.maxObjSelected :=
  measurement_selection_invariant distanceMode (Or.inl rfl)
    [MOp.select 5, MOp.select 7, MOp.select 9]

/-- **C3.** `_updateMeasurement` renders the overlay (adds the mode's lines)
and shows the floating panel exactly when the number of selected shapes
equals the mode's maximum; whenever the count differs it hides the
measurement instead: panel display `none`, overlay scene cleared, cached
response reset to `null`, and it returns without rendering. -/
theorem updateMeasurement_renders_iff_full (mode : Mode) (st : MState) :
    (st.selectedShapes.length = mode.maxObjSelected →
      updateMeasurement mode st =
        { st with scene := st.scene ++ mode.lines, panelDisplay := "block",
                  rendered := true }) ∧
    (st.selectedShapes.length ≠ mode.maxObjSelected →
      updateMeasurement mode st =
        { st with responseData := none, panelDisplay := "none", scene := [],
                  rendered := false }) := by
  constructor <;> intro h <;> unfold updateMeasurement hideMeasurement
  · rw [if_pos h]
  · rw [if_neg h]

/-- Witness for C3: in distance mode, a 2-element selection renders and a
1-element selection hides. -/
theorem updateMeasurement_renders_iff_full_witness :
    (updateMeasurement distanceMode
        { selectedShapes := [1, 2], panelDisplay := "none", scene := [],
          responseData := none, rendered := false } =
      { selectedShapes := [1, 2], panelDisplay := "block",
        scene := ["distanceLine", "connectingLine"], responseData := none,
        rendered := true }) ∧
    (updateMeasurement distanceMode
        { selectedShapes := [1], panelDisplay := "block",
          scene := ["distanceLine"], responseData := some 4, rendered := true } =
      { selectedShapes := [1], panelDisplay := "none", scene := [],
        responseData := none, rendered := false }) :=
  ⟨(updateMeasurement_renders_iff_full distanceMode
      { selectedShapes := [1, 2], panelDisplay := "none", scene := [],
        responseData := none, rendered := false }).1 (by decide),
   (updateMeasurement_renders_iff_full distanceMode
      { selectedShapes := [1], panelDisplay := "block",
        scene := ["distanceLine"], responseData := some 4, rendered := true }).2
     (by decide)⟩

/-- What one call of `Measurement._waitResponse` does: it either resolves the
promise with data, rejects it, or schedules another check after a delay in
milliseconds. -/
inductive WaitAction where
  | resolve (data : Nat)
  | reject (err : Nat)
  | retryAfter (ms : Nat)
deriving DecidableEq, Repr

/-- `Measurement._waitResponse(resolve, reject)`: resolves with the cached
`responseData` when it is non-null, otherwise schedules itself again after
100 ms. -/
def waitResponse (responseData : Option Nat) : WaitAction :=
  match responseData with
  | some d => .resolve d
  | none => .retryAfter 100

/-- Run the polling loop of `_waitResponse` over the successive values that
`responseData` takes at each scheduled check; returns the resolved value, or
`none` if the trace ends before a response is stored. -/
def waitRun : List (Option Nat) → Option Nat
  | [] => none
  | r :: rest =>
    match waitResponse r with
    | .resolve d => some d
    | _ => waitRun rest

/-- **C7.** `_waitResponse` resolves only with a non-null backend response:
it resolves with `d` exactly when `responseData = d` is stored; on a null
response it neither resolves nor rejects but schedules another check after
100 ms; it never rejects; and a polling run resolves only with a value that
occurred as a stored response in the trace. -/
theorem waitResponse_resolves_only_nonnull (r : Option Nat) :
    waitResponse none = WaitAction.retryAfter 100 ∧
    (∀ d, waitResponse r = WaitAction.resolve d ↔ r = some d) ∧
    (∀ e, waitResponse r ≠ WaitAction.reject e) ∧
    (∀ trace d, waitRun trace = some d → (some d) ∈ trace) := by
  refine ⟨rfl, ?_, ?_, ?_⟩
  · intro d
    cases r <;> simp [waitResponse]
  · intro e
    cases r <;> simp [waitResponse]
  · intro trace
    induction trace with
    | nil => intro d h; simp [waitRun] at h
    | cons a rest ih =>
      intro d h
      cases a with
      | none =>
        simp only [waitRun, waitResponse] at h
        exact List.mem_cons_of_mem _ (ih d h)
      | some v =>
        simp only [waitRun, waitResponse, Option.some.injEq] at h
        subst h
        exact List.mem_cons_self _ _

/-- Witness for C7: a run that polls a null response once and then finds the
stored response 7 resolves with a value present in the trace. -/
theorem waitResponse_resolves_only_nonnull_witness :
    (some 7) ∈ [none, some 7] :=
  (waitResponse_resolves_only_nonnull (some 7)).2.2.2 [none, some 7] 7 rfl

end Measure

/-- JavaScript runtime error kinds the embedded code can raise. -/
inductive JsError where
  | typeError
deriving DecidableEq, Repr

namespace Tools

/-- The named exports of `cad_tools/measure.js`
(`export { DistanceMeasurement, PropertiesMeasurement, AngleMeasurement }`). -/
def measureModuleExports : List String :=
  ["DistanceMeasurement", "PropertiesMeasurement", "AngleMeasurement"]

/-- The binding `tools.js` obtains when importing `name` from the measure
module: the exported class when it exists, `undefined` otherwise. -/
def importedBinding (name : String) : Option String :=
  if measureModuleExports.contains name then some name else none

/-- `new C(viewer)`: constructing from an `undefined` binding throws a
`TypeError`; otherwise it yields an instance of the class. -/
def jsNew (binding : Option String) : Except JsError String :=
  match binding with
  | some c => .ok c
  | none => .error .typeError

/-- The fields the `Tools` constructor would initialise. -/
structure ToolsState where
  distanceMeasurement : String
  sizeMeasurement : String
deriving DecidableEq, Repr

/-- The `Tools` constructor body: `new DistanceMeasurement(viewer)` followed
by `new SizeMeasurement(viewer)`, where both constructors are the bindings
imported from the measure module. -/
def toolsConstructor : Except JsError ToolsState := do
  let dm ← jsNew (importedBinding "DistanceMeasurement")
  let sm ← jsNew (importedBinding "SizeMeasurement")
  pure ⟨dm, sm⟩

/-- **C8.** `measure.js` does not export `SizeMeasurement`, so the binding
imported by `tools.js` is undefined and the `Tools` constructor always
throws; no `Tools` object is obtainable through it. -/
theorem tools_constructor_always_throws :
    measureModuleExports.contains "SizeMeasurement" = false ∧
      toolsConstructor = .error JsError.typeError := by
  constructor
  · rfl
  · rfl

end Tools

namespace PropertiesMeasurement

/-- A backend response for the properties measurement: each measured field
may be absent (`undefined`), numeric fields carry their value, the vertex
coordinates are an array (always truthy when present), plus the center. -/
structure Response where
  vertex_coords : Option (ℚ × ℚ × ℚ)
  length : Option ℚ
  area : Option ℚ
  volume : Option ℚ
  center : ℚ × ℚ × ℚ
deriving DecidableEq, Repr

/-- JavaScript truthiness of a possibly-absent number: `undefined` and `0`
are falsy, every other number is truthy. -/
def truthyNum : Option ℚ → Bool
  | none => false
  | some x => x != 0

/-- The cached `responseData` built by `PropertiesMeasurement.handleResponse`. -/
structure PropsData where
  vertex_coords : Option (ℚ × ℚ × ℚ)
  length : Option ℚ
  area : Option ℚ
  volume : Option ℚ
  center : ℚ × ℚ × ℚ
deriving DecidableEq, Repr

/-- The `data` object the `if`/`else if` chain of
`PropertiesMeasurement.handleResponse` builds: the first truthy field among
`vertex_coords`, `length`, `area`, `volume` is stored (with the center);
`none` models the `data` variable left `undefined`. -/
def handleResponseData (r : Response) : Option PropsData :=
  if r.vertex_coords.isSome then
    some ⟨r.vertex_coords, none, none, none, r.center⟩
  else if truthyNum r.length then
    some ⟨none, r.length, none, none, r.center⟩
  else if truthyNum r.area then
    some ⟨none, none, r.area, none, r.center⟩
  else if truthyNum r.volume then
    some ⟨none, none, none, r.volume, r.center⟩
  else
    none

/-- `PropertiesMeasurement.handleResponse(response)` acting on the current
`responseData`: when some field is truthy the new data (with its center) is
stored; when none is, `data.center = ...` dereferences `undefined`, a
`TypeError` is thrown and `responseData` is left unchanged. -/
def handleResponse (old : Option PropsData) (r : Response) :
    Option PropsData × Option JsError :=
  match handleResponseData r with
  | some d => (some d, none)
  | none => (old, some .typeError)

/-- Whether any of the four measured fields of the response is truthy. -/
def anyTruthy (r : Response) : Bool :=
  r.vertex_coords.isSome || truthyNum r.length || truthyNum r.area ||
    truthyNum r.volume

/-- **C10.** `PropertiesMeasurement.handleResponse` stores a measured field
only when it is truthy: the built data is `undefined` exactly when no field
is truthy (so a response whose `length`, `area` or `volume` equals `0` with
no other measured field present is treated as if the field were absent), in
which case the handler throws a `TypeError` and leaves `responseData`
unchanged; any stored field was truthy in the response. -/
theorem handleResponse_truthiness (old : Option PropsData) (r : Response) :
    (handleResponseData r = none ↔ anyTruthy r = false) ∧
    (anyTruthy r = false →
      handleResponse old r = (old, some JsError.typeError)) ∧
    (∀ d, handleResponseData r = some d →
      (d.vertex_coords.isSome → r.vertex_coords.isSome = true) ∧
      (d.length.isSome → truthyNum r.length = true) ∧
      (d.area.isSome → truthyNum r.area = true) ∧
      (d.volume.isSome → truthyNum r.volume = true)) ∧
    handleResponseData
      { vertex_coords := none, length := some 0, area := none, volume := none,
        center := r.center } = none := by
  refine ⟨?_, ?_, ?_, ?_⟩
  · unfold handleResponseData anyTruthy
    split
    · simp_all
    · split
      · simp_all
      · split
        · simp_all
        · split <;> simp_all
  · intro h
    unfold handleResponse
    have hd : handleResponseData r = none := by
      unfold handleResponseData
      unfold anyTruthy at h
      simp only [Bool.or_eq_false_iff] at h
      obtain ⟨⟨⟨h1, h2⟩, h3⟩, h4⟩ := h
      rw [if_neg (by simp [h1]), if_neg (by simp [h2]), if_neg (by simp [h3]),
        if_neg (by simp [h4])]
    rw [hd]
  · intro d hd
    unfold handleResponseData at hd
    split at hd
    · obtain rfl := Option.some.injEq _ _ ▸ hd
      refine ⟨fun _ => by assumption, ?_, ?_, ?_⟩ <;> intro h <;> simp at h
    · split at hd
      · obtain rfl := Option.some.injEq _ _ ▸ hd
        refine ⟨?_, fun _ => by assumption, ?_, ?_⟩ <;> intro h <;> simp at h
      · split at hd
        · obtain rfl := Option.some.injEq _ _ ▸ hd
          refine ⟨?_, ?_, fun _ => by assumption, ?_⟩ <;> intro h <;> simp at h
        · split at hd
          · obtain rfl := Option.some.injEq _ _ ▸ hd
            refine ⟨?_, ?_, ?_, fun _ => by assumption⟩ <;> intro h <;> simp at h
          · exact absurd hd (by simp)
  · unfold handleResponseData
    simp [truthyNum]

/-- Witness for C10: a response whose only measured field is `length = 0`
throws and leaves the cached data (here `none`) unchanged. -/
theorem handleResponse_truthiness_witness :
    handleResponse none
        { vertex_coords := none, length := some 0, area := none, volume := none,
          center := (0, 0, 0) } = (none, some JsError.typeError) :=
  (handleResponse_truthiness none
    { vertex_coords := none, length := some 0, area := none, volume := none,
      center := (0, 0, 0) }).2.1 (by decide)

end PropertiesMeasurement

namespace Raycaster

/-- An entry of the intersection list returned by
`raycaster.intersectObjects`, flattened to the fields
`getValidIntersectedObjs` examines: the material visibility of
`object.object`, its optional `distanceToRay`, and the `geomtype` record
`(topo, geomtype)` of `object.object.parent` (`none` when the parent is
null). -/
structure IntersectionHit where
  visible : Bool
  distanceToRay : Option ℚ
  parentGeomtype : Option (String × String)
deriving DecidableEq, Repr

/-- The raycaster's filters: `topoFilter` and `geomFilter` are arrays whose
entries are either `null` (the `none` filter value) or a kind string. -/
structure Filters where
  topoFilter : List (Option String)
  geomFilter : List (Option String)
deriving DecidableEq, Repr

/-- `object.distanceToRay == null || object.distanceToRay < 0.03`. -/
def distanceOk (d : Option ℚ) : Bool :=
  match d with
  | none => true
  | some x => x < 3 / 100

/-- The topology check of `getValidIntersectedObjs`:
`topoFilter.includes(solid) || topoFilter.includes(none) ||
topoFilter.includes(topo)`. -/
def topoAccepted (f : Filters) (topo : String) : Bool :=
  f.topoFilter.contains (some "solid") || f.topoFilter.contains none ||
    f.topoFilter.contains (some topo)

/-- The geometry check of `getValidIntersectedObjs`:
`!topoFilter.includes(solid) && (geomFilter.includes(none) ||
geomFilter.includes(geom))`. -/
def geomAccepted (f : Filters) (geom : String) : Bool :=
  !f.topoFilter.contains (some "solid") &&
    (f.geomFilter.contains none || f.geomFilter.contains (some geom))

/-- Whether one intersection entry is pushed onto `validObjs`: it must be
visible with an acceptable ray distance, have a non-null parent, and pass
the topology check and then the geometry check. -/
def hitIncluded (f : Filters) (h : IntersectionHit) : Bool :=
  h.visible && distanceOk h.distanceToRay &&
    (match h.parentGeomtype with
     | none => false
     | some (topo, geom) => topoAccepted f topo && geomAccepted f geom)

/-- `Raycaster.getValidIntersectedObjs`: when the mouse has not moved the
result is empty; otherwise the intersection list is filtered by
`hitIncluded`, keeping the order (closest first). -/
def getValidIntersectedObjs (mouseMoved : Bool) (f : Filters)
    (hits : List IntersectionHit) : List IntersectionHit :=
  if mouseMoved then hits.filter (hitIncluded f) else []

/-- The inclusion condition as the specification claim words it: the
topology filter contains none, solid, or the object's topology, and the
geometry filter contains none or the object's geom sub-type. -/
def specClaimIncluded (f : Filters) (topo geom : String) : Bool :=
  (f.topoFilter.contains none || f.topoFilter.contains (some "solid") ||
      f.topoFilter.contains (some topo)) &&
    (f.geomFilter.contains none || f.geomFilter.contains (some geom))

/-- **C1, counterexample.** With topology filter `[solid]` and geometry
filter `[none]`, a visible intersected face object passes both filters as
the claim words them, yet `getValidIntersectedObjs` returns the empty list:
the geometry check requires the topology filter not to contain `solid`. -/
theorem raycaster_filter_claim_cex :
    specClaimIncluded ⟨[some "solid"], [none]⟩ "face" "plane" = true ∧
      getValidIntersectedObjs true ⟨[some "solid"], [none]⟩
        [⟨true, none, some ("face", "plane")⟩] = [] := by
  constructor
  · rfl
  · rfl

/-- **C1, amended.** For every intersected object examined by
`getValidIntersectedObjs` (mouse moved, object visible, `distanceToRay`
null or below 0.03, non-null parent), the object is included iff the
topology filter does not contain solid, the topology filter contains none
or the object's topology, and the geometry filter contains none or the
object's geom sub-type; in particular, whenever the topology filter
contains solid the returned list is empty. -/
theorem raycaster_filter_amended (mouseMoved : Bool) (f : Filters)
    (hits : List IntersectionHit) (h : IntersectionHit) :
    (h ∈ getValidIntersectedObjs mouseMoved f hits ↔
      mouseMoved = true ∧ h ∈ hits ∧ h.visible = true ∧
        distanceOk h.distanceToRay = true ∧
        ∃ topo geom, h.parentGeomtype = some (topo, geom) ∧
          f.topoFilter.contains (some "solid") = false ∧
          (f.topoFilter.contains none || f.topoFilter.contains (some topo)) = true ∧
          (f.geomFilter.contains none || f.geomFilter.contains (some geom)) = true) ∧
    (f.topoFilter.contains (some "solid") = true →
      getValidIntersectedObjs mouseMoved f hits = []) := by
  constructor
  · unfold getValidIntersectedObjs
    cases mouseMoved with
    | false => simp
    | true =>
      rw [if_pos rfl, List.mem_filter]
      unfold hitIncluded
      constructor
      · rintro ⟨hmem, hcond⟩
        simp only [Bool.and_eq_true] at hcond
        obtain ⟨⟨hvis, hdist⟩, hrest⟩ := hcond
        match hpg : h.parentGeomtype with
        | none => rw [hpg] at hrest; exact absurd hrest (by simp)
        | some (topo, geom) =>
          rw [hpg] at hrest
          simp only [Bool.and_eq_true] at hrest
          obtain ⟨htopo, hgeom⟩ := hrest
          unfold topoAccepted at htopo
          unfold geomAccepted at hgeom
          simp only [Bool.and_eq_true, Bool.not_eq_true'] at hgeom
          refine ⟨rfl, hmem, hvis, hdist, topo, geom, rfl, hgeom.1, ?_, hgeom.2⟩
          simp only [Bool.or_eq_true] at htopo ⊢
          rcases htopo with (hs | hn) | ht
          · rw [hgeom.1] at hs; exact absurd hs (by simp)
          · exact Or.inl hn
          · exact Or.inr ht
      · rintro ⟨-, hmem, hvis, hdist, topo, geom, hpg, hns, htopo, hgeom⟩
        refine ⟨hmem, ?_⟩
        rw [hvis, hdist, hpg]
        simp only [Bool.and_eq_true, Bool.true_and]
        unfold topoAccepted geomAccepted
        rw [hns]
        simp only [Bool.or_eq_true] at htopo ⊢
        constructor
        · rcases htopo with hn | ht
          · exact Or.inl (Or.inr hn)
          · exact Or.inr ht
        · simpa using hgeom
  · intro hs
    unfold getValidIntersectedObjs
    cases mouseMoved with
    | false => rw [if_neg (by simp)]
    | true =>
      rw [if_pos rfl]
      rw [List.filter_eq_nil_iff]
      intro a _
      unfold hitIncluded
      match hpg : a.parentGeomtype with
      | none => simp
      | some (topo, geom) =>
        unfold geomAccepted
        rw [hs]
        simp

/-- Witness for the amended C1: with topology filter `[null, "face"]` and
geometry filter `[null]`, a visible face hit is returned. -/
theorem raycaster_filter_amended_witness :
    ⟨true, none, some ("face", "plane")⟩ ∈
      getValidIntersectedObjs true ⟨[none, some "face"], [none]⟩
        [⟨true, none, some ("face", "plane")⟩] :=
  ((raycaster_filter_amended true ⟨[none, some "face"], [none]⟩
      [⟨true, none, some ("face", "plane")⟩]
      ⟨true, none, some ("face", "plane")⟩).1).2
    ⟨rfl, by decide, rfl, rfl, "face", "plane", rfl, by decide, by decide, by decide⟩

end Raycaster

namespace Grid

/-- The `niceFraction` selection inside `Grid.niceNumber`: rounds the
mantissa to 1, 2, 5 or 10 (with cutoffs 1.5 / 3 / 7 when rounding, and
1 / 2 / 5 otherwise). -/
def niceFraction (fraction : ℚ) (round : Bool) : ℚ :=
  if round then
    if fraction < 3 / 2 then 1
    else if fraction < 3 then 2
    else if fraction < 7 then 5
    else 10
  else
    if fraction ≤ 1 then 1
    else if fraction ≤ 2 then 2
    else if fraction ≤ 5 then 5
    else 10

/-- `Grid.niceNumber(value, round)`: `exponent = Math.floor(Math.log10 value)`
(`Int.log 10` in exact arithmetic for positive values), `fraction = value /
10^exponent`, result `niceFraction * 10^exponent`. -/
def niceNumber (value : ℚ) (round : Bool) : ℚ :=
  niceFraction (value / 10 ^ Int.log 10 value) round * 10 ^ Int.log 10 value

/-- `Grid.niceBounds(axisStart, axisEnd, numTicks)`: returns the snapped
axis start and end and the nice tick; a falsy (zero) `numTicks` defaults to
10, a zero-width axis yields tick 0, otherwise the tick is
`niceNumber(niceNumber(width) / (numTicks - 1), true)` and the bounds are
floored / ceiled to multiples of it. -/
def niceBounds (axisStart axisEnd numTicks : ℚ) : ℚ × ℚ × ℚ :=
  let numTicks2 := if numTicks = 0 then 10 else numTicks
  let axisWidth := axisEnd - axisStart
  if axisWidth = 0 then
    (axisStart, axisEnd, 0)
  else
    let niceRange := niceNumber axisWidth false
    let niceTick := niceNumber (niceRange / (numTicks2 - 1)) true
    ((⌊axisStart / niceTick⌋ : ℚ) * niceTick,
      (⌈axisEnd / niceTick⌉ : ℚ) * niceTick, niceTick)

lemma niceFraction_mem (fraction : ℚ) (round : Bool) :
    niceFraction fraction round = 1 ∨ niceFraction fraction round = 2 ∨
      niceFraction fraction round = 5 ∨ niceFraction fraction round = 10 := by
  unfold niceFraction
  split_ifs <;> simp

lemma niceNumber_form (v : ℚ) (round : Bool) :
    ∃ f : ℚ, (f = 1 ∨ f = 2 ∨ f = 5 ∨ f = 10) ∧
      niceNumber v round = f * 10 ^ Int.log 10 v :=
  ⟨niceFraction (v / 10 ^ Int.log 10 v) round, niceFraction_mem _ round, rfl⟩

lemma intLog_ratCast (v : ℚ) (hv : 0 < v) :
    Int.log 10 ((v : ℝ)) = Int.log 10 v := by
  have hv2 : (0 : ℝ) < (v : ℝ) := by exact_mod_cast hv
  apply le_antisymm
  · rw [← Int.zpow_le_iff_le_log (by norm_num) hv]
    have h := Int.zpow_log_le_self (R := ℝ) (b := 10) (by norm_num) hv2
    rw [← Rat.cast_le (K := ℝ), Rat.cast_zpow]
    convert h using 3
  · rw [← Int.zpow_le_iff_le_log (by norm_num) hv2]
    have h := Int.zpow_log_le_self (R := ℚ) (b := 10) (by norm_num) hv
    have h2 := (Rat.cast_le (K := ℝ)).mpr h
    rw [Rat.cast_zpow] at h2
    convert h2 using 3

/-- **C4.** For every positive value `v`, `Grid.niceNumber(v, round)` is
`f × 10^n` with `f ∈ {1, 2, 5, 10}` and `n = Int.log 10 v =
⌊log10 v⌋`; consequently the tick interval computed by `Grid.niceBounds`
for a non-degenerate axis range (and a tick count above 1, as the grid
passes `2 × ticks`) is a nice value of the form `1/2/5/10 × 10^n`. -/
theorem grid_nice_tick_form (v a b t : ℚ) (round : Bool)
    (hv : 0 < v) (hab : a < b) (ht : 1 < t) :
    (∃ f : ℚ, (f = 1 ∨ f = 2 ∨ f = 5 ∨ f = 10) ∧
        niceNumber v round = f * 10 ^ Int.log 10 v) ∧
    ⌊Real.logb 10 (v : ℝ)⌋ = Int.log 10 v ∧
    (∃ f : ℚ, ∃ n : ℤ, (f = 1 ∨ f = 2 ∨ f = 5 ∨ f = 10) ∧
        (niceBounds a b t).2.2 = f * 10 ^ n) := by
  refine ⟨niceNumber_form v round, ?_, ?_⟩
  · rw [show (10 : ℝ) = ((10 : ℕ) : ℝ) by norm_cast]
    rw [Real.floor_logb_natCast (by positivity)]
    exact intLog_ratCast v hv
  · have hw : b - a ≠ 0 := sub_ne_zero.mpr (ne_of_gt hab)
    have htz : t ≠ 0 := by linarith
    unfold niceBounds
    rw [if_neg htz, if_neg hw]
    dsimp only
    obtain ⟨f, hf, hform⟩ :=
      niceNumber_form (niceNumber (b - a) false / (t - 1)) true
    exact ⟨f, Int.log 10 (niceNumber (b - a) false / (t - 1)), hf, hform⟩

/-- Witness for C4 at `v = 3`, axis range `(0, 1)`, 20 ticks. -/
theorem grid_nice_tick_form_witness :
    (∃ f : ℚ, (f = 1 ∨ f = 2 ∨ f = 5 ∨ f = 10) ∧
        niceNumber 3 true = f * 10 ^ Int.log 10 (3 : ℚ)) ∧
    ⌊Real.logb 10 ((3 : ℚ) : ℝ)⌋ = Int.log 10 (3 : ℚ) ∧
    (∃ f : ℚ, ∃ n : ℤ, (f = 1 ∨ f = 2 ∨ f = 5 ∨ f = 10) ∧
        (niceBounds 0 1 20).2.2 = f * 10 ^ n) :=
  grid_nice_tick_form 3 0 1 20 true (by norm_num) (by norm_num) (by norm_num)

end Grid

/-- A THREE.js `Vector3` over exact reals. -/
@[ext] structure Vec3 where
  x : ℝ
  y : ℝ
  z : ℝ

namespace Vec3

/-- `Vector3.add`. -/
def add (a b : Vec3) : Vec3 := ⟨a.x + b.x, a.y + b.y, a.z + b.z⟩

/-- `Vector3.sub`. -/
def sub (a b : Vec3) : Vec3 := ⟨a.x - b.x, a.y - b.y, a.z - b.z⟩

/-- `Vector3.multiplyScalar`. -/
def smul (c : ℝ) (v : Vec3) : Vec3 := ⟨c * v.x, c * v.y, c * v.z⟩

/-- The zero vector. -/
def zero : Vec3 := ⟨0, 0, 0⟩

/-- `Vector3.length`: the Euclidean norm. -/
noncomputable def length (v : Vec3) : ℝ :=
  Real.sqrt (v.x * v.x + v.y * v.y + v.z * v.z)

/-- `Vector3.normalize`: `divideScalar(this.length() || 1)` — divides by the
length, or by 1 for the zero vector. -/
noncomputable def normalize (v : Vec3) : Vec3 :=
  smul (1 / (if v.length = 0 then 1 else v.length)) v

/-- `Vector3.setLength(l)`: `normalize().multiplyScalar(l)`. -/
noncomputable def setLength (v : Vec3) (l : ℝ) : Vec3 := smul l v.normalize

lemma add_sub_cancel_vec (u t : Vec3) : (u.add t).sub t = u := by
  ext <;> simp [add, sub]

lemma sub_eq_zero_iff_vec (u t : Vec3) : u.sub t = zero ↔ u = t := by
  simp [sub, zero, Vec3.ext_iff, sub_eq_zero]

lemma smul_smul_vec (a b : ℝ) (v : Vec3) : smul a (smul b v) = smul (a * b) v := by
  ext <;> simp [smul] <;> ring

lemma length_nonneg (v : Vec3) : 0 ≤ v.length := Real.sqrt_nonneg _

lemma length_eq_zero_iff (v : Vec3) : v.length = 0 ↔ v = zero := by
  unfold length
  constructor
  · intro h
    rw [Real.sqrt_eq_zero'] at h
    have hx : v.x = 0 := by nlinarith [mul_self_nonneg v.x, mul_self_nonneg v.y, mul_self_nonneg v.z]
    have hy : v.y = 0 := by nlinarith [mul_self_nonneg v.x, mul_self_nonneg v.y, mul_self_nonneg v.z]
    have hz : v.z = 0 := by nlinarith [mul_self_nonneg v.x, mul_self_nonneg v.y, mul_self_nonneg v.z]
    ext <;> simp [zero, hx, hy, hz]
  · rintro rfl
    simp [zero]

lemma length_pos_of_ne_zero (v : Vec3) (h : v ≠ zero) : 0 < v.length :=
  lt_of_le_of_ne (length_nonneg v)
    (fun he => h ((length_eq_zero_iff v).mp he.symm))

lemma length_smul (c : ℝ) (v : Vec3) : (smul c v).length = |c| * v.length := by
  unfold length smul
  dsimp only
  rw [show c * v.x * (c * v.x) + c * v.y * (c * v.y) + c * v.z * (c * v.z)
      = c ^ 2 * (v.x * v.x + v.y * v.y + v.z * v.z) by ring]
  rw [Real.sqrt_mul (sq_nonneg c), Real.sqrt_sq_eq_abs]

lemma normalize_eq (v : Vec3) (hv : v.length ≠ 0) :
    v.normalize = smul (1 / v.length) v := by
  unfold normalize
  rw [if_neg hv]

lemma setLength_eq (v : Vec3) (hv : v.length ≠ 0) (l : ℝ) :
    v.setLength l = smul (l / v.length) v := by
  unfold setLength
  rw [normalize_eq v hv, smul_smul_vec, mul_one_div]

lemma length_setLength (v : Vec3) (hv : v.length ≠ 0) (l : ℝ) :
    (v.setLength l).length = |l| := by
  rw [setLength_eq v hv, length_smul, abs_div, abs_of_nonneg (length_nonneg v),
    div_mul_cancel₀ _ hv]

end Vec3

/-- A THREE.js `Quaternion`; the embedded methods only store and copy it. -/
structure Quat where
  x : ℝ
  y : ℝ
  z : ℝ
  w : ℝ

/-- The three up-conventions of `defaultDirections` / `cameraUp`. -/
inductive UpConv where
  | y_up
  | z_up
  | legacy
deriving DecidableEq

/-- The seven preset directions of `defaultDirections`. -/
inductive PresetDir where
  | iso
  | front
  | rear
  | left
  | right
  | top
  | bottom
deriving DecidableEq

/-- `defaultDirections[up][dir].pos`. -/
def presetPos : UpConv → PresetDir → Vec3
  | .y_up, .iso => ⟨1, 1, 1⟩
  | .y_up, .front => ⟨0, 0, 1⟩
  | .y_up, .rear => ⟨0, 0, -1⟩
  | .y_up, .left => ⟨-1, 0, 0⟩
  | .y_up, .right => ⟨1, 0, 0⟩
  | .y_up, .top => ⟨0, 1, 0⟩
  | .y_up, .bottom => ⟨0, -1, 0⟩
  | .z_up, .iso => ⟨1, -1, 1⟩
  | .z_up, .front => ⟨0, -1, 0⟩
  | .z_up, .rear => ⟨0, 1, 0⟩
  | .z_up, .left => ⟨-1, 0, 0⟩
  | .z_up, .right => ⟨1, 0, 0⟩
  | .z_up, .top => ⟨0, 0, 1⟩
  | .z_up, .bottom => ⟨0, 0, -1⟩
  | .legacy, .iso => ⟨1, 1, 1⟩
  | .legacy, .front => ⟨1, 0, 0⟩
  | .legacy, .rear => ⟨-1, 0, 0⟩
  | .legacy, .left => ⟨0, 1, 0⟩
  | .legacy, .right => ⟨0, -1, 0⟩
  | .legacy, .top => ⟨0, 0, 1⟩
  | .legacy, .bottom => ⟨0, 0, -1⟩

/-- `defaultDirections[up][dir].z_rot`. -/
noncomputable def presetZRot : UpConv → PresetDir → ℝ
  | .z_up, .top => -(Real.pi / 2)
  | .z_up, .bottom => -(Real.pi / 2)
  | _, _ => 0

lemma presetPos_ne_zero (u : UpConv) (d : PresetDir) :
    presetPos u d ≠ Vec3.zero := by
  cases u <;> cases d <;>
    norm_num [presetPos, Vec3.zero, Vec3.ext_iff]

/-- The mutable state of one underlying THREE camera (orthographic or
perspective): position, raw `zoom` attribute, quaternion. -/
structure SubCamera where
  position : Vec3
  zoom : ℝ
  quaternion : Quat

/-- The dual-camera wrapper `Camera`: the `ortho` flag selecting the active
camera, both sub-cameras, the lookAt `target`, the up-convention, and
`camera_distance = dfactor × distance` with `dfactor = 5`. -/
structure Camera where
  ortho : Bool
  oCam : SubCamera
  pCam : SubCamera
  target : Vec3
  camera_distance : ℝ
  up : UpConv

namespace Camera

/-- `this.camera`: the active sub-camera (kept in sync with `this.ortho`). -/
def camera (c : Camera) : SubCamera := if c.ortho then c.oCam else c.pCam

/-- Write back the active sub-camera. -/
def setCamera (c : Camera) (s : SubCamera) : Camera :=
  if c.ortho then { c with oCam := s } else { c with pCam := s }

/-- `this.camera.position.set(...)`. -/
def putPosition (c : Camera) (p : Vec3) : Camera :=
  setCamera c { c.camera with position := p }

/-- `this.camera.quaternion.set(...)`. -/
def putQuaternion (c : Camera) (q : Quat) : Camera :=
  setCamera c { c.camera with quaternion := q }

/-- `this.camera.zoom = val`. -/
def putZoom (c : Camera) (z : ℝ) : Camera :=
  setCamera c { c.camera with zoom := z }

/-- `Camera.getZoom`: the raw zoom attribute in orthographic mode, else
`camera_distance / |position - target|`. -/
noncomputable def getZoom (c : Camera) : ℝ :=
  if c.ortho then c.camera.zoom
  else c.camera_distance / (c.camera.position.sub c.target).length

/-- `Camera.setZoom(val)`: sets the zoom attribute in orthographic mode,
else rescales the position to distance `camera_distance / val` from the
target. -/
noncomputable def setZoom (c : Camera) (val : ℝ) : Camera :=
  if c.ortho then putZoom c val
  else putPosition c
    (((c.camera.position.sub c.target).setLength
        (c.camera_distance / val)).add c.target)

/-- The position step of `Camera.setupCamera`: a relative position is
normalised, scaled by `camera_distance` and offset by the target. -/
noncomputable def applyPosition (c : Camera) (relative : Bool) :
    Option Vec3 → Camera
  | none => c
  | some p =>
    putPosition c (if relative then
        (Vec3.smul c.camera_distance p.normalize).add c.target
      else p)

/-- The quaternion step of `Camera.setupCamera`. -/
def applyQuaternion (c : Camera) : Option Quat → Camera
  | none => c
  | some q => putQuaternion c q

/-- The zoom step of `Camera.setupCamera`. -/
noncomputable def applyZoom (c : Camera) : Option ℝ → Camera
  | none => c
  | some z => setZoom c z

/-- `Camera.setupCamera(relative, position, quaternion, zoom)` with `null`
arguments modelled by `none`. -/
noncomputable def setupCamera (c : Camera) (relative : Bool)
    (position : Option Vec3) (quaternion : Option Quat) (zoom : Option ℝ) :
    Camera :=
  applyZoom (applyQuaternion (applyPosition c relative position) quaternion) zoom

/-- `Camera.lookAtTarget`: delegates to the rendering library's `lookAt`,
which reorients the active camera's quaternion (the library computation is
the parameter `look`). -/
def lookAtTargetWith (look : Vec3 → Vec3 → Quat) (c : Camera) : Camera :=
  putQuaternion c (look c.camera.position c.target)

/-- The `z_rot` correction at the end of `Camera.presetCamera`: when the
preset's `z_rot` is non-zero, the quaternion becomes
`axisAngleQ((0,0,1), z_rot) * currentQuaternion` (the library quaternion
operations are the parameters `axisAngleQ` and `qmul`). -/
noncomputable def presetRotate (axisAngleQ : Vec3 → ℝ → Quat)
    (qmul : Quat → Quat → Quat) (up : UpConv) (dir : PresetDir) (c : Camera) :
    Camera :=
  if presetZRot up dir ≠ 0 then
    putQuaternion c
      (qmul (axisAngleQ ⟨0, 0, 1⟩ (presetZRot up dir)) c.camera.quaternion)
  else c

/-- `Camera.presetCamera(dir)` with the default `zoom = this.camera.zoom`:
`setupCamera(true, defaultDirections[up][dir].pos, null, zoom)`, then
`lookAtTarget()`, then the `z_rot` correction. -/
noncomputable def presetCamera (look : Vec3 → Vec3 → Quat)
    (axisAngleQ : Vec3 → ℝ → Quat) (qmul : Quat → Quat → Quat)
    (c : Camera) (dir : PresetDir) : Camera :=
  presetRotate axisAngleQ qmul c.up dir
    (lookAtTargetWith look
      (setupCamera c true (some (presetPos c.up dir)) none (some c.camera.zoom)))

/-- `Camera.switchCamera(ortho_flag)`: remembers position, reported zoom and
quaternion, swaps the active camera and flag, then restores them through
`setPosition(p0, false)`, `setZoom(z0)` and `setQuaternion(q0)`. -/
noncomputable def switchCamera (c : Camera) (ortho_flag : Bool) : Camera :=
  setupCamera
    (setZoom
      (setupCamera { c with ortho := ortho_flag } false
        (some c.camera.position) none none)
      c.getZoom)
    false none (some c.camera.quaternion) none

lemma ortho_setCamera (c : Camera) (s : SubCamera) :
    (setCamera c s).ortho = c.ortho := by
  unfold setCamera
  split <;> rfl

lemma target_setCamera (c : Camera) (s : SubCamera) :
    (setCamera c s).target = c.target := by
  unfold setCamera
  split <;> rfl

lemma camera_distance_setCamera (c : Camera) (s : SubCamera) :
    (setCamera c s).camera_distance = c.camera_distance := by
  unfold setCamera
  split <;> rfl

lemma camera_setCamera (c : Camera) (s : SubCamera) :
    (setCamera c s).camera = s := by
  unfold camera setCamera
  by_cases h : c.ortho <;> simp [h]

lemma ortho_putPosition (c : Camera) (p : Vec3) :
    (putPosition c p).ortho = c.ortho := ortho_setCamera ..

lemma target_putPosition (c : Camera) (p : Vec3) :
    (putPosition c p).target = c.target := target_setCamera ..

lemma camera_distance_putPosition (c : Camera) (p : Vec3) :
    (putPosition c p).camera_distance = c.camera_distance := camera_distance_setCamera ..

lemma camera_putPosition (c : Camera) (p : Vec3) :
    (putPosition c p).camera = { c.camera with position := p } := camera_setCamera ..

lemma ortho_putQuaternion (c : Camera) (q : Quat) :
    (putQuaternion c q).ortho = c.ortho := ortho_setCamera ..

lemma target_putQuaternion (c : Camera) (q : Quat) :
    (putQuaternion c q).target = c.target := target_setCamera ..

lemma camera_distance_putQuaternion (c : Camera) (q : Quat) :
    (putQuaternion c q).camera_distance = c.camera_distance := camera_distance_setCamera ..

lemma camera_putQuaternion (c : Camera) (q : Quat) :
    (putQuaternion c q).camera = { c.camera with quaternion := q } := camera_setCamera ..

lemma ortho_putZoom (c : Camera) (z : ℝ) :
    (putZoom c z).ortho = c.ortho := ortho_setCamera ..

lemma target_putZoom (c : Camera) (z : ℝ) :
    (putZoom c z).target = c.target := target_setCamera ..

lemma camera_distance_putZoom (c : Camera) (z : ℝ) :
    (putZoom c z).camera_distance = c.camera_distance := camera_distance_setCamera ..

lemma camera_putZoom (c : Camera) (z : ℝ) :
    (putZoom c z).camera = { c.camera with zoom := z } := camera_setCamera ..

lemma setZoom_of_ortho (c : Camera) (v : ℝ) (h : c.ortho = true) :
    c.setZoom v = putZoom c v := by
  unfold setZoom
  rw [if_pos h]

lemma setZoom_of_persp (c : Camera) (v : ℝ) (h : c.ortho = false) :
    c.setZoom v = putPosition c
      (((c.camera.position.sub c.target).setLength
          (c.camera_distance / v)).add c.target) := by
  unfold setZoom
  rw [if_neg (by rw [h]; exact Bool.false_ne_true)]

lemma getZoom_of_ortho (c : Camera) (h : c.ortho = true) :
    c.getZoom = c.camera.zoom := by
  unfold getZoom
  rw [if_pos h]

lemma getZoom_of_persp (c : Camera) (h : c.ortho = false) :
    c.getZoom = c.camera_distance / (c.camera.position.sub c.target).length := by
  unfold getZoom
  rw [if_neg (by rw [h]; exact Bool.false_ne_true)]

lemma ortho_setZoom (c : Camera) (v : ℝ) : (c.setZoom v).ortho = c.ortho := by
  unfold setZoom
  split
  · exact ortho_putZoom ..
  · exact ortho_putPosition ..

lemma target_setZoom (c : Camera) (v : ℝ) : (c.setZoom v).target = c.target := by
  unfold setZoom
  split
  · exact target_putZoom ..
  · exact target_putPosition ..

lemma camera_distance_setZoom (c : Camera) (v : ℝ) :
    (c.setZoom v).camera_distance = c.camera_distance := by
  unfold setZoom
  split
  · exact camera_distance_putZoom ..
  · exact camera_distance_putPosition ..

end Camera

namespace Camera

lemma length_sub_ne_zero (p t : Vec3) (h : p ≠ t) : (p.sub t).length ≠ 0 := by
  intro h0
  exact h ((Vec3.sub_eq_zero_iff_vec _ _).mp ((Vec3.length_eq_zero_iff _).mp h0))

/-- **C6.** In both camera modes, for every zoom value `v > 0`,
`setZoom(v)` followed by `getZoom()` returns `v`: in orthographic mode the
zoom attribute is stored and read back, in perspective mode the position is
rescaled to distance `camera_distance / v` from the target, which `getZoom`
inverts exactly under real arithmetic (for a camera not sitting on its
target and a positive construction distance). -/
theorem setZoom_getZoom_roundtrip (c : Camera) (v : ℝ) (hv : 0 < v)
    (hcd : 0 < c.camera_distance) (hp : c.camera.position ≠ c.target) :
    (c.setZoom v).getZoom = v := by
  by_cases h : c.ortho = true
  · rw [setZoom_of_ortho c v h,
      getZoom_of_ortho _ (by rw [ortho_putZoom]; exact h),
      camera_putZoom]
  · have h2 : c.ortho = false := by simpa using h
    rw [setZoom_of_persp c v h2,
      getZoom_of_persp _ (by rw [ortho_putPosition]; exact h2),
      camera_putPosition, camera_distance_putPosition, target_putPosition]
    dsimp only
    rw [Vec3.add_sub_cancel_vec,
      Vec3.length_setLength _ (length_sub_ne_zero _ _ hp),
      abs_of_pos (div_pos hcd hv)]
    field_simp

lemma setupCamera_rel_position (c : Camera) (p : Vec3) (z : ℝ)
    (hp : p ≠ Vec3.zero) (hcd : 0 < c.camera_distance) (hz : 0 < z) :
    (setupCamera c true (some p) none (some z)).camera.position.sub
        (setupCamera c true (some p) none (some z)).target =
      (if c.ortho then Vec3.smul (c.camera_distance / p.length) p
       else Vec3.smul (c.camera_distance / (z * p.length)) p) := by
  have hL : 0 < p.length := Vec3.length_pos_of_ne_zero p hp
  have hLne : p.length ≠ 0 := ne_of_gt hL
  unfold setupCamera applyZoom applyQuaternion applyPosition
  dsimp only
  simp only [reduceIte]
  by_cases ho : c.ortho = true
  · rw [setZoom_of_ortho _ z (by rw [ortho_putPosition]; exact ho)]
    simp only [camera_putZoom, camera_putPosition, target_putZoom,
      target_putPosition]
    rw [if_pos ho, Vec3.add_sub_cancel_vec, Vec3.normalize_eq p hLne,
      Vec3.smul_smul_vec, mul_one_div]
  · have ho2 : c.ortho = false := by simpa using ho
    rw [setZoom_of_persp _ z (by rw [ortho_putPosition]; exact ho2)]
    simp only [camera_putPosition, target_putPosition,
      camera_distance_putPosition]
    rw [if_neg ho, Vec3.add_sub_cancel_vec, Vec3.add_sub_cancel_vec,
      Vec3.normalize_eq p hLne, Vec3.smul_smul_vec, mul_one_div]
    have hulen : (Vec3.smul (c.camera_distance / p.length) p).length =
        c.camera_distance := by
      rw [Vec3.length_smul, abs_of_pos (div_pos hcd hL),
        div_mul_cancel₀ _ hLne]
    rw [Vec3.setLength_eq _ (by rw [hulen]; exact ne_of_gt hcd), hulen,
      Vec3.smul_smul_vec]
    congr 1
    field_simp
    ring

/-- **C5.** For each up-convention and each preset direction,
`presetCamera(dir)` places the camera on the ray from the target along the
preset's direction vector: the new position minus the target is a positive
multiple of `defaultDirections[up][dir].pos`, and when the current zoom is
1 its length equals `camera_distance = 5 ×` the construction distance
(the library `lookAt` / quaternion operations, which only reorient the
camera, are arbitrary parameters). -/
theorem presetCamera_places_on_ray (look : Vec3 → Vec3 → Quat)
    (axisAngleQ : Vec3 → ℝ → Quat) (qmul : Quat → Quat → Quat)
    (c : Camera) (dir : PresetDir) (dist : ℝ)
    (hcd : c.camera_distance = 5 * dist) (hdist : 0 < dist)
    (hz : 0 < c.camera.zoom) :
    ∃ k : ℝ, 0 < k ∧
      (presetCamera look axisAngleQ qmul c dir).camera.position.sub
          (presetCamera look axisAngleQ qmul c dir).target =
        Vec3.smul k (presetPos c.up dir) ∧
      (c.camera.zoom = 1 →
        ((presetCamera look axisAngleQ qmul c dir).camera.position.sub
            (presetCamera look axisAngleQ qmul c dir).target).length =
          5 * dist) := by
  have hcd0 : 0 < c.camera_distance := by rw [hcd]; positivity
  have hL : 0 < (presetPos c.up dir).length :=
    Vec3.length_pos_of_ne_zero _ (presetPos_ne_zero c.up dir)
  have hpos : (presetCamera look axisAngleQ qmul c dir).camera.position =
      (setupCamera c true (some (presetPos c.up dir)) none
        (some c.camera.zoom)).camera.position := by
    unfold presetCamera presetRotate lookAtTargetWith
    split <;> simp only [camera_putQuaternion]
  have htgt : (presetCamera look axisAngleQ qmul c dir).target =
      (setupCamera c true (some (presetPos c.up dir)) none
        (some c.camera.zoom)).target := by
    unfold presetCamera presetRotate lookAtTargetWith
    split <;> simp only [target_putQuaternion]
  rw [hpos, htgt,
    setupCamera_rel_position c _ _ (presetPos_ne_zero c.up dir) hcd0 hz]
  by_cases ho : c.ortho = true
  · rw [if_pos ho]
    refine ⟨c.camera_distance / (presetPos c.up dir).length,
      div_pos hcd0 hL, rfl, ?_⟩
    intro hz1
    rw [Vec3.length_smul, abs_of_pos (div_pos hcd0 hL),
      div_mul_cancel₀ _ (ne_of_gt hL), hcd]
  · rw [if_neg ho]
    refine ⟨c.camera_distance / (c.camera.zoom * (presetPos c.up dir).length),
      div_pos hcd0 (mul_pos hz hL), rfl, ?_⟩
    intro hz1
    rw [hz1, one_mul, Vec3.length_smul, abs_of_pos (div_pos hcd0 hL),
      div_mul_cancel₀ _ (ne_of_gt hL), hcd]

/-- **C9.** `switchCamera(ortho_flag)` leaves the reported zoom and the
quaternion unchanged; but when switching from orthographic (zoom `z`) to
perspective it rescales the restored position so its distance to the target
becomes `camera_distance / z` (in the same direction from the target), so
the position is preserved only when its distance already equals that
value. -/
theorem switchCamera_zoom_quat_position (c : Camera) (flag : Bool)
    (hcd : 0 < c.camera_distance) (hz : 0 < c.camera.zoom)
    (hp : c.camera.position ≠ c.target) :
    (c.switchCamera flag).getZoom = c.getZoom ∧
    (c.switchCamera flag).camera.quaternion = c.camera.quaternion ∧
    (c.ortho = true → flag = false →
      ∃ k : ℝ, 0 < k ∧
        (c.switchCamera flag).camera.position.sub c.target =
          Vec3.smul k (c.camera.position.sub c.target) ∧
        ((c.switchCamera flag).camera.position.sub c.target).length =
          c.camera_distance / c.camera.zoom) := by
  have hlen : 0 < (c.camera.position.sub c.target).length := by
    apply Vec3.length_pos_of_ne_zero
    intro h0
    exact hp ((Vec3.sub_eq_zero_iff_vec _ _).mp h0)
  have hz0 : 0 < c.getZoom := by
    unfold getZoom
    split
    · exact hz
    · exact div_pos hcd hlen
  have hE : c.switchCamera flag =
      putQuaternion
        (setZoom (putPosition { c with ortho := flag } c.camera.position)
          c.getZoom)
        c.camera.quaternion := by
    unfold switchCamera setupCamera applyZoom applyQuaternion applyPosition
    rfl
  rw [hE]
  refine ⟨?_, ?_, ?_⟩
  · cases flag with
    | true =>
      have hBo : (putPosition { c with ortho := true } c.camera.position).ortho
          = true := by rw [ortho_putPosition]
      rw [setZoom_of_ortho _ _ hBo,
        getZoom_of_ortho _ (by rw [ortho_putQuaternion, ortho_putZoom]; exact hBo),
        camera_putQuaternion]
      dsimp only
      rw [camera_putZoom]
    | false =>
      have hBo : (putPosition { c with ortho := false } c.camera.position).ortho
          = false := by rw [ortho_putPosition]
      rw [setZoom_of_persp _ _ hBo,
        getZoom_of_persp _
          (by rw [ortho_putQuaternion, ortho_putPosition]; exact hBo)]
      simp only [camera_putQuaternion, camera_putPosition,
        target_putQuaternion, target_putPosition,
        camera_distance_putQuaternion, camera_distance_putPosition]
      rw [Vec3.add_sub_cancel_vec,
        Vec3.length_setLength _ (ne_of_gt hlen),
        abs_of_pos (div_pos hcd hz0)]
      field_simp
  · rw [camera_putQuaternion]
  · intro hortho hflag
    subst hflag
    have hBo : (putPosition { c with ortho := false } c.camera.position).ortho
        = false := by rw [ortho_putPosition]
    rw [setZoom_of_persp _ _ hBo]
    simp only [camera_putQuaternion, camera_putPosition,
      target_putQuaternion, target_putPosition, camera_distance_putPosition]
    rw [Vec3.add_sub_cancel_vec, Vec3.setLength_eq _ (ne_of_gt hlen)]
    refine ⟨(c.camera_distance / c.getZoom) /
        (c.camera.position.sub c.target).length,
      div_pos (div_pos hcd hz0) hlen, rfl, ?_⟩
    rw [Vec3.length_smul, abs_of_pos (div_pos (div_pos hcd hz0) hlen),
      div_mul_cancel₀ _ (ne_of_gt hlen), getZoom_of_ortho c hortho]

end Camera

namespace Camera

/-- A concrete orthographic camera (position `(3,0,0)`, target origin,
`camera_distance = 5`, zoom 1) used by the camera witnesses. -/
noncomputable def witnessCamera : Camera :=
  { ortho := true,
    oCam := { position := ⟨3, 0, 0⟩, zoom := 1, quaternion := ⟨0, 0, 0, 1⟩ },
    pCam := { position := ⟨0, 0, 5⟩, zoom := 1, quaternion := ⟨0, 0, 0, 1⟩ },
    target := ⟨0, 0, 0⟩,
    camera_distance := 5,
    up := UpConv.y_up }

/-- Witness for C6: the round trip at zoom 2 on the concrete camera. -/
theorem setZoom_getZoom_roundtrip_witness :
    (witnessCamera.setZoom 2).getZoom = 2 :=
  setZoom_getZoom_roundtrip witnessCamera 2 (by norm_num)
    (by norm_num [witnessCamera])
    (by norm_num [witnessCamera, camera, Vec3.ext_iff])

/-- Witness for C5: the iso preset on the concrete camera (construction
distance 1) with trivial library rotation operations. -/
theorem presetCamera_places_on_ray_witness :
    ∃ k : ℝ, 0 < k ∧
      (presetCamera (fun _ _ => ⟨0, 0, 0, 1⟩) (fun _ _ => ⟨0, 0, 0, 1⟩)
          (fun a _ => a) witnessCamera PresetDir.iso).camera.position.sub
          (presetCamera (fun _ _ => ⟨0, 0, 0, 1⟩) (fun _ _ => ⟨0, 0, 0, 1⟩)
            (fun a _ => a) witnessCamera PresetDir.iso).target =
        Vec3.smul k (presetPos witnessCamera.up PresetDir.iso) ∧
      (witnessCamera.camera.zoom = 1 →
        ((presetCamera (fun _ _ => ⟨0, 0, 0, 1⟩) (fun _ _ => ⟨0, 0, 0, 1⟩)
            (fun a _ => a) witnessCamera PresetDir.iso).camera.position.sub
            (presetCamera (fun _ _ => ⟨0, 0, 0, 1⟩) (fun _ _ => ⟨0, 0, 0, 1⟩)
              (fun a _ => a) witnessCamera PresetDir.iso).target).length =
          5 * 1) :=
  presetCamera_places_on_ray (fun _ _ => ⟨0, 0, 0, 1⟩) (fun _ _ => ⟨0, 0, 0, 1⟩)
    (fun a _ => a) witnessCamera PresetDir.iso 1
    (by norm_num [witnessCamera]) (by norm_num)
    (by norm_num [witnessCamera, camera])

/-- Witness for C9: switching the concrete orthographic camera to
perspective. -/
theorem switchCamera_zoom_quat_position_witness :
    (witnessCamera.switchCamera false).getZoom = witnessCamera.getZoom ∧
    (witnessCamera.switchCamera false).camera.quaternion =
      witnessCamera.camera.quaternion ∧
    (witnessCamera.ortho = true → false = false →
      ∃ k : ℝ, 0 < k ∧
        (witnessCamera.switchCamera false).camera.position.sub
            witnessCamera.target =
          Vec3.smul k
            (witnessCamera.camera.position.sub witnessCamera.target) ∧
        ((witnessCamera.switchCamera false).camera.position.sub
            witnessCamera.target).length =
          witnessCamera.camera_distance / witnessCamera.camera.zoom) :=
  switchCamera_zoom_quat_position witnessCamera false
    (by norm_num [witnessCamera])
    (by norm_num [witnessCamera, camera])
    (by norm_num [witnessCamera, camera, Vec3.ext_iff])

end Camera
